import Mathlib

/-!
# mainpro-backend: session lifecycle of `server.js`

A shallow embedding of the Express handlers of `src/server.js` over an explicit
store.  The MongoDB collection `Session` is a `List Session` in insertion order;
`Session.findOne(q)` is the first record matching `q`, and `session.save()` on a
record obtained from `findOne(q)` rewrites that same record in place.  Store
operations are taken to succeed; the mail transport may fail (`mailOk`).
Every handler returns the new store, the responses written to `res` (in order)
and the mails handed to the transporter.

`jsonwebtoken` is an external library; it is modelled symbolically: a token is
either malformed or a payload `(email, iat, exp)` together with the key that
signed it, and verification succeeds exactly when the key is the server secret
and the clock is strictly before `exp`.

Request fields: a `sessionId` of a JSON body is a number (`none` when absent, falsy
when `0`); a `sessionId` of a query string is a decimal numeral (`none` when absent or
empty, and then falsy; any numeral, `0` included, is a non-empty string and truthy);
string fields are `none` when absent and falsy when empty.

`Math.random()` is modelled as the double `u / 2^53` for a natural number
`u < 2^53`.  The draw `Math.floor(100 + Math.random() * 900)` is computed in IEEE 754
binary64, round to nearest, ties to even: a finite non-negative double in the range
met here is a numerator over `2^53`, and each of the two operations (the product, the
sum) is the exact result rounded to 53 significant bits (`roundDouble`).

Every handler is served on the store as it stands and runs to its end before the
next request is served: `run` is a sequence of requests without interleaving.
-/

namespace Mainpro

/-- The `Object` payload of answers: key/value pairs. -/
abbrev Answers := List (String × String)

/-- Symbolic JSON web token. -/
inductive Token where
  | malformed (raw : String)
  | signed (email : String) (iat : Nat) (exp : Nat) (key : String)
  deriving DecidableEq, Repr

/-- The record of `sessionSchema` (lines 24-36), with the schema defaults. -/
structure Session where
  sessionId : Nat
  sessionIdList : List Nat := []
  name : Option String := none
  email : String
  token : Option Token := none
  verified : Bool := false
  preTest : Bool := false
  postTest : Bool := false
  completed : Bool := false
  preTestAnswers : Option Answers := some []
  postTestAnswers : Option Answers := some []
  deriving DecidableEq, Repr

/-- The body of a response. -/
inductive Body where
  | json (message : Option String) (sessionId : Option Nat) (completed : Option Bool)
  | answers (key : String) (value : Option Answers)
  | html (title : String)
  | pdf (name : String) (sessionId : Nat)
  | cleared (message : String) (deletedCount : Nat)
  | sessions (all : List Session)
  deriving DecidableEq, Repr

/-- One response written to `res`. -/
structure Response where
  status : Nat
  body : Body
  deriving DecidableEq, Repr

/-- One mail handed to `transporter.sendMail`: the recipient and the token of the
verification link `https://api.easthma.ca/verify-email?token=...`. -/
structure Mail where
  toAddress : String
  linkToken : Token
  deriving DecidableEq, Repr

/-- What a handler leaves behind. -/
structure Outcome where
  store : List Session
  responses : List Response
  mails : List Mail
  deriving DecidableEq, Repr

/-- The response `res.status(status).json(...)` whose body holds only a message. -/
def msg (status : Nat) (message : String) : Response :=
  ⟨status, Body.json (some message) none none⟩

/-- JavaScript truthiness of a numeric field of the request. -/
def truthyNat : Option Nat → Bool
  | some n => n != 0
  | none => false

/-- JavaScript truthiness of a numeric query-string parameter: any numeral is a
non-empty string. -/
def truthyQuery : Option Nat → Bool
  | some _ => true
  | none => false

/-- JavaScript truthiness of a string field of the request. -/
def truthyStr : Option String → Bool
  | some s => s != ""
  | none => false

/-- The first record with the given `sessionId`: `Session.findOne` by `sessionId`. -/
def findBySessionId (sessionId : Nat) (store : List Session) : Option Session :=
  store.find? (fun s => s.sessionId == sessionId)

/-- The first record with the given email: `Session.findOne` by `email`. -/
def findByEmail (email : String) (store : List Session) : Option Session :=
  store.find? (fun s => s.email == email)

/-- Rewrite in place the first record selected by `p`: the effect of mutating the
document returned by `findOne` and calling `save()`. -/
def saveFirst (p : Session → Bool) (f : Session → Session) : List Session → List Session
  | [] => []
  | s :: rest => if p s then f s :: rest else s :: saveFirst p f rest

/-- The mutation of lines 73-77: record the post-test and close the cycle. -/
def completePostTest (answers : Option Answers) (s : Session) : Session :=
  { s with
    postTestAnswers := answers
    postTest := true
    completed := true
    sessionIdList := s.sessionIdList ++ [s.sessionId] }

/-- The mutation of lines 140-143: open a new cycle under a new `sessionId`. -/
def restartCycle (sessionId : Nat) (s : Session) : Session :=
  { s with
    completed := false
    preTest := false
    postTest := false
    sessionId := sessionId }

/-- The update `verified: true` of lines 213-217. -/
def markVerified (s : Session) : Session :=
  { s with verified := true }

/-- The mutation of lines 263-268: record the pre-test, the name and, when one is
supplied, the email. -/
def completePreTest (userName : Option String) (email : Option String)
    (answers : Option Answers) (s : Session) : Session :=
  { s with
    preTest := true
    name := userName
    preTestAnswers := answers
    email := if truthyStr email then email.getD "" else s.email }

/-- The call `jwt.sign` of line 129 at clock `now`: payload `email`, expiry one hour. -/
def jwtSign (secret : String) (now : Nat) (email : String) : Token :=
  Token.signed email now (now + 3600) secret

/-- The call `jwt.verify(token, secret)` at clock `now`; `none` when it throws. -/
def jwtVerify (secret : String) (now : Nat) : Token → Option String
  | Token.malformed _ => none
  | Token.signed email _ exp key => if key = secret ∧ now < exp then some email else none

/-- Round `n` to a multiple of `2^k`, to nearest, ties to the even multiple. -/
def roundAt (k n : Nat) : Nat :=
  let q := n / 2 ^ k
  let r := n % 2 ^ k
  if 2 * r > 2 ^ k ∨ (2 * r = 2 ^ k ∧ q % 2 = 1) then (q + 1) * 2 ^ k else q * 2 ^ k

/-- Search, from `k` upwards, the first `k` at which `n / 2^k` fits 53 bits, and round
`n` there. -/
def roundDoubleFrom : Nat → Nat → Nat → Nat
  | 0, k, n => roundAt k n
  | fuel + 1, k, n =>
    if n / 2 ^ k < 2 ^ 53 then roundAt k n else roundDoubleFrom fuel (k + 1) n

/-- The binary64 rounding of the real `n / 2^53`, again as a numerator over `2^53`:
`n` rounded to 53 significant bits, ties to even.  The 971 steps of the search reach
past the largest finite double. -/
def roundDouble (n : Nat) : Nat :=
  roundDoubleFrom 971 0 n

/-- The draw `Math.floor(100 + Math.random() * 900)` of line 133 for
`Math.random() = u / 2^53`: the product is rounded, the sum is rounded, and the floor
is taken. -/
def drawSessionId (u : Nat) : Nat :=
  roundDouble (100 * 2 ^ 53 + roundDouble ((u % 2 ^ 53) * 900)) / 2 ^ 53

/-- The `do ... while` loop of lines 131-134 over the successive random draws; `none`
when every draw of the sequence is rejected (the loop has not exited). -/
def retryLoop (store : List Session) (session : Option Session) : List Nat → Option Nat
  | [] => none
  | u :: rest =>
    let sessionId := drawSessionId u
    if (findBySessionId sessionId store).isSome ||
        (match session with
          | some s => s.sessionIdList.contains sessionId
          | none => false)
    then retryLoop store session rest
    else some sessionId

/-- Handler of `POST /submit-posttest` (lines 55-85). -/
def submitPosttest (sessionId : Option Nat) (answers : Option Answers)
    (store : List Session) : Outcome :=
  if !truthyNat sessionId then ⟨store, [msg 400 "Session ID is required."], []⟩
  else if answers.getD [] == [] then ⟨store, [msg 400 "Answers are required."], []⟩
  else
    match findBySessionId (sessionId.getD 0) store with
    | none => ⟨store, [msg 404 "Session not found."], []⟩
    | some _ =>
      ⟨saveFirst (fun s => s.sessionId == sessionId.getD 0) (completePostTest answers) store,
        [msg 200 "Post-test marked as complete"], []⟩

/-- Handler of `GET /get-posttest-answers` (lines 88-112). -/
def getPosttestAnswers (sessionId : Option Nat) (store : List Session) : Outcome :=
  if !truthyQuery sessionId then ⟨store, [msg 400 "Session ID is required."], []⟩
  else
    match findBySessionId (sessionId.getD 0) store with
    | none => ⟨store, [msg 404 "Session not found."], []⟩
    | some session =>
      if session.postTest then
        ⟨store, [⟨200, Body.answers "postTestAnswers" session.postTestAnswers⟩], []⟩
      else ⟨store, [msg 400 "Post-test not completed"], []⟩

/-- Handler of `POST /send-verification` (lines 115-176).  When the draws run out
before the loop of lines 131-134 exits, the handler is still looping: nothing has been
saved, answered or mailed.  The restart branch (lines 139-145) saves and then leaves
the handler without writing to `res`. -/
def sendVerification (secret : String) (now : Nat) (mailOk : Bool) (draws : List Nat)
    (email : Option String) (store : List Session) : Outcome :=
  if !truthyStr email then ⟨store, [msg 400 "Email is required"], []⟩
  else
    let email := email.getD ""
    let session := findByEmail email store
    if (match session with
        | some s => s.verified && !s.completed
        | none => false)
    then
      ⟨store, [⟨200, Body.json (some "Session already exists")
        (session.map (fun s => s.sessionId)) none⟩], []⟩
    else
      let token := jwtSign secret now email
      match retryLoop store session draws with
      | none => ⟨store, [], []⟩
      | some sessionId =>
        match session with
        | some s =>
          if !s.completed then
            ⟨store, [⟨200, Body.json (some "Session already exists") (some s.sessionId) none⟩], []⟩
          else
            ⟨saveFirst (fun r => r.email == email) (restartCycle sessionId) store, [], []⟩
        | none =>
          let created : Session :=
            { email := email, token := some token, verified := false, sessionId := sessionId }
          if mailOk then
            ⟨store ++ [created],
              [msg 200 "Verification email sent. Please verify your email before proceeding."],
              [⟨email, token⟩]⟩
          else ⟨store ++ [created], [msg 500 "Failed to send verification email"], []⟩

/-- Handler of `POST /check-pretest-completion` (lines 178-200). -/
def checkPretestCompletion (email : Option String) (store : List Session) : Outcome :=
  if !truthyStr email then ⟨store, [msg 400 "Email is required"], []⟩
  else
    match findByEmail (email.getD "") store with
    | none =>
      ⟨store, [msg 404 "No session found for this email. Please complete the pre-test first."], []⟩
    | some session =>
      if !session.preTest then
        ⟨store, [⟨400, Body.json
          (some "Pre-test not completed. Please complete the pre-test before proceeding.")
          none (some false)⟩], []⟩
      else
        ⟨store, [⟨200, Body.json (some "Pre-test has been completed.")
          (some session.sessionId) (some true)⟩], []⟩

/-- Handler of `GET /verify-email` (lines 202-243). -/
def verifyEmail (secret : String) (now : Nat) (token : Option Token)
    (store : List Session) : Outcome :=
  match token with
  | none => ⟨store, [msg 400 "Token is required"], []⟩
  | some token =>
    match jwtVerify secret now token with
    | none => ⟨store, [msg 400 "Invalid or expired token"], []⟩
    | some email =>
      match findByEmail email store with
      | none => ⟨store, [msg 404 "Session not found or already verified"], []⟩
      | some _ =>
        ⟨saveFirst (fun s => s.email == email) markVerified store,
          [⟨200, Body.html "Email Verified"⟩], []⟩

/-- Handler of `POST /submit-pretest` (lines 245-276). -/
def submitPretest (sessionId : Option Nat) (userName : Option String) (email : Option String)
    (answers : Option Answers) (store : List Session) : Outcome :=
  if !truthyNat sessionId || !truthyStr userName then
    ⟨store, [msg 400 "Session ID and Name are required"], []⟩
  else
    match findBySessionId (sessionId.getD 0) store with
    | none => ⟨store, [msg 404 "Session not found"], []⟩
    | some session =>
      if session.preTest then ⟨store, [msg 400 "Pre-Test has already been submitted."], []⟩
      else
        ⟨saveFirst (fun s => s.sessionId == sessionId.getD 0)
            (completePreTest userName email answers) store,
          [msg 200 "Pre-Test marked as complete"], []⟩

/-- Handler of `POST /verify-posttest` (lines 278-301). -/
def verifyPosttest (email : Option String) (store : List Session) : Outcome :=
  if !truthyStr email then ⟨store, [msg 400 "Email is required"], []⟩
  else
    match findByEmail (email.getD "") store with
    | none =>
      ⟨store, [msg 404 "No session found for this email. Please complete the pretest first."], []⟩
    | some session =>
      if !session.preTest then
        ⟨store, [msg 400
          "Pretest not completed. Please complete the pretest before taking the post-test."], []⟩
      else ⟨store, [⟨200, Body.json none (some session.sessionId) none⟩], []⟩

/-- Handler of `GET /get-pretest-answers` (lines 303-326). -/
def getPretestAnswers (sessionId : Option Nat) (store : List Session) : Outcome :=
  if !truthyQuery sessionId then ⟨store, [msg 400 "Session ID is required"], []⟩
  else
    match findBySessionId (sessionId.getD 0) store with
    | none => ⟨store, [msg 404 "Session not found"], []⟩
    | some session =>
      if session.preTest then
        ⟨store, [⟨200, Body.answers "preTestAnswers" session.preTestAnswers⟩], []⟩
      else ⟨store, [msg 400 "Pre-test not completed"], []⟩

/-- Handler of `POST /get-session` (lines 329-348). -/
def getSession (email : Option String) (store : List Session) : Outcome :=
  if !truthyStr email then ⟨store, [msg 400 "Email is required"], []⟩
  else
    match findByEmail (email.getD "") store with
    | some session =>
      if session.verified && !session.completed then
        ⟨store, [⟨200, Body.json none (some session.sessionId) none⟩], []⟩
      else
        ⟨store, [msg 403 "Email not verified. Please verify your email to continue."], []⟩
    | none => ⟨store, [msg 403 "Email not verified. Please verify your email to continue."], []⟩

/-- Handler of `GET /generate-certificate` (lines 350-468); the document is reduced to
the two values it prints. -/
def generateCertificate (sessionId : Option Nat) (store : List Session) : Outcome :=
  if !truthyQuery sessionId then ⟨store, [msg 400 "Session ID is required."], []⟩
  else
    match findBySessionId (sessionId.getD 0) store with
    | none => ⟨store, [msg 404 "Session not found."], []⟩
    | some session =>
      ⟨store, [⟨200, Body.pdf
        (if truthyStr session.name then session.name.getD "" else "Unknown User")
        (sessionId.getD 0)⟩], []⟩

/-- Handler of `DELETE /clear-database` (lines 470-483). -/
def clearDatabase (store : List Session) : Outcome :=
  ⟨[], [⟨200, Body.cleared "Database cleared successfully" store.length⟩], []⟩

/-- Handler of `GET /all-sessions` (lines 485-493). -/
def allSessions (store : List Session) : Outcome :=
  ⟨store, [⟨200, Body.sessions store⟩], []⟩

/-- One HTTP request, with what the environment contributes to it (clock, random
draws, mail transport). -/
inductive Op where
  | submitPosttest (sessionId : Option Nat) (answers : Option Answers)
  | getPosttestAnswers (sessionId : Option Nat)
  | sendVerification (now : Nat) (mailOk : Bool) (draws : List Nat) (email : Option String)
  | checkPretestCompletion (email : Option String)
  | verifyEmail (now : Nat) (token : Option Token)
  | submitPretest (sessionId : Option Nat) (userName : Option String) (email : Option String)
      (answers : Option Answers)
  | verifyPosttest (email : Option String)
  | getPretestAnswers (sessionId : Option Nat)
  | getSession (email : Option String)
  | generateCertificate (sessionId : Option Nat)
  | clearDatabase
  | allSessions
  deriving DecidableEq, Repr

/-- Route a request to its handler. -/
def handle (secret : String) (store : List Session) : Op → Outcome
  | Op.submitPosttest sessionId answers => submitPosttest sessionId answers store
  | Op.getPosttestAnswers sessionId => getPosttestAnswers sessionId store
  | Op.sendVerification now mailOk draws email =>
    sendVerification secret now mailOk draws email store
  | Op.checkPretestCompletion email => checkPretestCompletion email store
  | Op.verifyEmail now token => verifyEmail secret now token store
  | Op.submitPretest sessionId userName email answers =>
    submitPretest sessionId userName email answers store
  | Op.verifyPosttest email => verifyPosttest email store
  | Op.getPretestAnswers sessionId => getPretestAnswers sessionId store
  | Op.getSession email => getSession email store
  | Op.generateCertificate sessionId => generateCertificate sessionId store
  | Op.clearDatabase => clearDatabase store
  | Op.allSessions => allSessions store

/-- Trace condition: every pre-test or post-test submission addresses a session
whose email is verified. -/
def targetVerified (store : List Session) : Op → Bool
  | Op.submitPretest sessionId _ _ _ =>
    match findBySessionId (sessionId.getD 0) store with
    | some s => s.verified
    | none => true
  | Op.submitPosttest sessionId _ =>
    match findBySessionId (sessionId.getD 0) store with
    | some s => s.verified
    | none => true
  | _ => true

/-- Trace condition: every post-test submission addresses a session whose pre-test
is recorded (what `POST /verify-posttest` checks before it hands out the id). -/
def targetPreTested (store : List Session) : Op → Bool
  | Op.submitPosttest sessionId _ =>
    match findBySessionId (sessionId.getD 0) store with
    | some s => s.preTest
    | none => true
  | _ => true

/-- Trace condition: a pre-test submission that supplies an email supplies the
email of the addressed session or one that no session carries. -/
def emailUnused (store : List Session) : Op → Bool
  | Op.submitPretest sessionId _ email _ =>
    !truthyStr email ||
      (match findBySessionId (sessionId.getD 0) store with
        | some s => s.email == email.getD "" || (findByEmail (email.getD "") store).isNone
        | none => true)
  | _ => true

/-- The store after one request. -/
def step (secret : String) (store : List Session) (op : Op) : List Session :=
  (handle secret store op).store

/-- The store after a sequence of requests served one after the other. -/
def run (secret : String) (store : List Session) (ops : List Op) : List Session :=
  ops.foldl (step secret) store

/-- Whether every request of the sequence, served in order from `store`, meets the
trace condition `G` in the state where it is served. -/
def admissible (G : List Session → Op → Bool) (secret : String) :
    List Session → List Op → Bool
  | _, [] => true
  | store, op :: rest => G store op && admissible G secret (step secret store op) rest

/-! ## Concrete requests and stores used as examples -/

/-- A value of `Math.random() * 2^53` whose draw is the id 101. -/
def u101 : Nat := 15011998757901

/-- A value of `Math.random() * 2^53` whose draw is the id 102. -/
def u102 : Nat := 25019997929836

/-- A value of `Math.random() * 2^53` at which the rounding of the product decides the
draw: the exact value of `100 + u * 900 / 2^53` is below 107, the double is 107. -/
def uRounded : Nat := 70055994203541

/-- The first verification request of `a@x.com`; the draw is the id 100. -/
def requestA : Op := Op.sendVerification 0 true [0] (some "a@x.com")

/-- A verification request of `b@x.com`; the first draw (100) is taken, the second is 101. -/
def requestB : Op := Op.sendVerification 5 true [0, u101] (some "b@x.com")

/-- The store after `requestA`: one unverified session with id 100. -/
def pendingStore : List Session := run "k" [] [requestA]

/-- The store after `requestA` and a post-test submission on id 100: one completed session. -/
def completedStore : List Session :=
  run "k" [] [requestA, Op.submitPosttest (some 100) (some [("q2", "c")])]

/-- A full cycle of `a@x.com`: request, verification, pre-test, post-test. -/
def fullCycle : List Op :=
  [requestA, Op.verifyEmail 60 (some (jwtSign "k" 0 "a@x.com")),
    Op.submitPretest (some 100) (some "Alice") none (some [("q1", "b")]),
    Op.submitPosttest (some 100) (some [("q2", "c")])]

/-- The session left by `fullCycle`. -/
def cycledSession : Session :=
  { sessionId := 100, sessionIdList := [100], name := some "Alice", email := "a@x.com",
    token := some (jwtSign "k" 0 "a@x.com"), verified := true, preTest := true,
    postTest := true, completed := true, preTestAnswers := some [("q1", "b")],
    postTestAnswers := some [("q2", "c")] }

/-- Two participants register, then the second submits the pre-test under the
email of the first. -/
def emailTakeover : List Op :=
  [requestA, requestB,
    Op.submitPretest (some 101) (some "Bob") (some "a@x.com") (some [("q1", "b")])]

/-- The session created by `requestA`. -/
def sessionA : Session :=
  { sessionId := 100, email := "a@x.com", token := some (jwtSign "k" 0 "a@x.com") }

/-- The session created by `requestB`. -/
def sessionB : Session :=
  { sessionId := 101, email := "b@x.com", token := some (jwtSign "k" 5 "b@x.com") }

/-- Two participants register; the second completes a cycle under id 101, restarts
under id 102 and submits the pre-test under the email of the first. -/
def historyTakeover : List Op :=
  [requestA, requestB, Op.submitPosttest (some 101) (some [("q2", "c")]),
    Op.sendVerification 20 true [u102] (some "b@x.com"),
    Op.submitPretest (some 102) (some "Bob") (some "a@x.com") (some [("q1", "b")])]

/-- The store after `historyTakeover`: two records carry `a@x.com`, and 101 is in the
history of the second. -/
def sharedStore : List Session := run "k" [] historyTakeover

/-- Two participants register, the second submits the pre-test under an email that no
session carries, the first under the email it already has. -/
def emailUpdates : List Op :=
  [requestA, requestB,
    Op.submitPretest (some 101) (some "Bob") (some "c@x.com") (some [("q1", "b")]),
    Op.submitPretest (some 100) (some "Alice") (some "a@x.com") (some [("q1", "d")])]

/-- The first session left by `emailUpdates`. -/
def updatedA : Session :=
  { sessionId := 100, name := some "Alice", email := "a@x.com",
    token := some (jwtSign "k" 0 "a@x.com"), preTest := true,
    preTestAnswers := some [("q1", "d")] }

/-- The second session left by `emailUpdates`. -/
def updatedB : Session :=
  { sessionId := 101, name := some "Bob", email := "c@x.com",
    token := some (jwtSign "k" 5 "b@x.com"), preTest := true,
    preTestAnswers := some [("q1", "b")] }

/-! ## Auxiliary facts -/

theorem roundAt_bounds (k n a b : Nat) (ha : 2 ^ k ∣ a) (hb : 2 ^ k ∣ b) (han : a ≤ n)
    (hnb : n ≤ b) : a ≤ roundAt k n ∧ roundAt k n ≤ b := by
  obtain ⟨a1, rfl⟩ := ha
  obtain ⟨b1, rfl⟩ := hb
  have hP : 0 < 2 ^ k := Nat.two_pow_pos _
  have hq : a1 ≤ n / 2 ^ k := (Nat.le_div_iff_mul_le hP).2 (by rw [Nat.mul_comm]; exact han)
  have hdm : 2 ^ k * (n / 2 ^ k) + n % 2 ^ k = n := Nat.div_add_mod n (2 ^ k)
  unfold roundAt
  simp only
  split
  · rename_i hup
    have hr : 0 < n % 2 ^ k := by
      rcases hup with h | ⟨h, _⟩ <;> omega
    have hlt : n / 2 ^ k < b1 := by
      by_contra hge
      have hge2 : b1 ≤ n / 2 ^ k := Nat.le_of_not_lt hge
      have : 2 ^ k * b1 ≤ 2 ^ k * (n / 2 ^ k) := Nat.mul_le_mul_left _ hge2
      omega
    constructor
    · calc 2 ^ k * a1 ≤ 2 ^ k * (n / 2 ^ k + 1) := Nat.mul_le_mul_left _ (by omega)
        _ = (n / 2 ^ k + 1) * 2 ^ k := Nat.mul_comm _ _
    · calc (n / 2 ^ k + 1) * 2 ^ k = 2 ^ k * (n / 2 ^ k + 1) := Nat.mul_comm _ _
        _ ≤ 2 ^ k * b1 := Nat.mul_le_mul_left _ hlt
  · constructor
    · calc 2 ^ k * a1 ≤ 2 ^ k * (n / 2 ^ k) := Nat.mul_le_mul_left _ hq
        _ = n / 2 ^ k * 2 ^ k := Nat.mul_comm _ _
    · calc n / 2 ^ k * 2 ^ k = 2 ^ k * (n / 2 ^ k) := Nat.mul_comm _ _
        _ ≤ n := by omega
        _ ≤ 2 ^ k * b1 := hnb

theorem roundDoubleFrom_spec (fuel : Nat) :
    ∀ k n, n / 2 ^ (k + fuel) < 2 ^ 53 →
      ∃ j, k ≤ j ∧ roundDoubleFrom fuel k n = roundAt j n ∧ n / 2 ^ j < 2 ^ 53 ∧
        ∀ i, k ≤ i → i < j → 2 ^ 53 ≤ n / 2 ^ i := by
  induction fuel with
  | zero =>
    intro k n h
    exact ⟨k, Nat.le_refl _, rfl, by simpa using h, fun i h1 h2 => absurd h1 (by omega)⟩
  | succ fuel ih =>
    intro k n h
    simp only [roundDoubleFrom]
    split
    · rename_i hfit
      exact ⟨k, Nat.le_refl _, rfl, hfit, fun i h1 h2 => absurd h1 (by omega)⟩
    · rename_i hbig
      have h2 : n / 2 ^ (k + 1 + fuel) < 2 ^ 53 := by
        have e : k + 1 + fuel = k + (fuel + 1) := by omega
        rw [e]; exact h
      obtain ⟨j, hkj, hj, hfit, hmin⟩ := ih (k + 1) n h2
      refine ⟨j, by omega, hj, hfit, ?_⟩
      intro i hki hij
      by_cases hik : i = k
      · subst hik; exact Nat.le_of_not_lt hbig
      · exact hmin i (by omega) hij

theorem roundDoubleFrom_zero_spec (fuel n : Nat) (hfuel : 10 ≤ fuel) (hn : n < 2 ^ 63) :
    ∃ j, j ≤ 10 ∧ roundDoubleFrom fuel 0 n = roundAt j n ∧ n / 2 ^ j < 2 ^ 53 := by
  have h10 : n / 2 ^ 10 < 2 ^ 53 := by norm_num at hn ⊢; omega
  have h0 : n / 2 ^ (0 + fuel) < 2 ^ 53 := by
    have hpow : (2 : Nat) ^ 10 ≤ 2 ^ (0 + fuel) :=
      Nat.pow_le_pow_right (Nat.succ_pos 1) (by omega)
    exact Nat.lt_of_le_of_lt (Nat.div_le_div_left hpow (Nat.two_pow_pos 10)) h10
  obtain ⟨j, _, hj, hfit, hmin⟩ := roundDoubleFrom_spec fuel 0 n h0
  refine ⟨j, ?_, hj, hfit⟩
  by_contra hgt
  have h := hmin 10 (Nat.zero_le _) (by omega)
  omega

theorem roundDouble_spec (n : Nat) (hn : n < 2 ^ 63) :
    ∃ j, j ≤ 10 ∧ roundDouble n = roundAt j n ∧ n / 2 ^ j < 2 ^ 53 :=
  roundDoubleFrom_zero_spec 971 n (by omega) hn

theorem roundDouble_product_le (u : Nat) :
    roundDouble ((u % 2 ^ 53) * 900) ≤ 900 * 2 ^ 53 - 1024 := by
  have hu : u % 2 ^ 53 < 2 ^ 53 := Nat.mod_lt _ (by norm_num)
  have hn : (u % 2 ^ 53) * 900 < 2 ^ 63 := by norm_num at hu ⊢; omega
  obtain ⟨j, hj10, hj, hfit⟩ := roundDouble_spec _ hn
  rw [hj]
  have hdvd : 2 ^ j ∣ 900 * 2 ^ 53 - 1024 :=
    Dvd.dvd.trans (Nat.pow_dvd_pow 2 hj10) ⟨900 * 2 ^ 43 - 1, by norm_num⟩
  by_cases hle : (u % 2 ^ 53) * 900 ≤ 900 * 2 ^ 53 - 1024
  · exact (roundAt_bounds j _ 0 _ (dvd_zero _) hdvd (Nat.zero_le _) hle).2
  · have hj10b : j = 10 := by
      by_contra hne
      have hlt : j < 10 := by omega
      interval_cases j <;> norm_num at hfit hle hu <;> omega
    subst hj10b
    unfold roundAt
    norm_num at hle hu ⊢
    split <;> omega

theorem roundDouble_sum_bounds (m : Nat) (hm : m ≤ 900 * 2 ^ 53 - 1024) :
    100 * 2 ^ 53 ≤ roundDouble (100 * 2 ^ 53 + m) ∧
      roundDouble (100 * 2 ^ 53 + m) ≤ 1000 * 2 ^ 53 - 1024 := by
  have hn : 100 * 2 ^ 53 + m < 2 ^ 63 := by norm_num at hm ⊢; omega
  obtain ⟨j, hj10, hj, _⟩ := roundDouble_spec _ hn
  rw [hj]
  have hda : 2 ^ j ∣ 100 * 2 ^ 53 :=
    Dvd.dvd.trans (Nat.pow_dvd_pow 2 hj10) ⟨100 * 2 ^ 43, by norm_num⟩
  have hdb : 2 ^ j ∣ 1000 * 2 ^ 53 - 1024 :=
    Dvd.dvd.trans (Nat.pow_dvd_pow 2 hj10) ⟨1000 * 2 ^ 43 - 1, by norm_num⟩
  exact roundAt_bounds j _ _ _ hda hdb (Nat.le_add_right _ _) (by norm_num at hm ⊢; omega)

theorem drawSessionId_bounds (u : Nat) : 100 ≤ drawSessionId u ∧ drawSessionId u ≤ 999 := by
  unfold drawSessionId
  have h := roundDouble_sum_bounds _ (roundDouble_product_le u)
  norm_num at h ⊢
  omega

theorem drawSessionId_rounded :
    drawSessionId uRounded = 107 ∧
      (100 * 2 ^ 53 + (uRounded % 2 ^ 53) * 900) / 2 ^ 53 = 106 := by
  decide

theorem findBySessionId_eq_none {sessionId : Nat} {store : List Session} :
    findBySessionId sessionId store = none ↔ ∀ s ∈ store, s.sessionId ≠ sessionId := by
  simp [findBySessionId, List.find?_eq_none]

theorem findBySessionId_some {sessionId : Nat} {store : List Session} {s : Session}
    (h : findBySessionId sessionId store = some s) : s ∈ store ∧ s.sessionId = sessionId := by
  unfold findBySessionId at h
  exact ⟨List.mem_of_find?_eq_some h, by simpa using List.find?_some h⟩

theorem findByEmail_eq_none {email : String} {store : List Session} :
    findByEmail email store = none ↔ ∀ s ∈ store, s.email ≠ email := by
  simp [findByEmail, List.find?_eq_none]

theorem findByEmail_some {email : String} {store : List Session} {s : Session}
    (h : findByEmail email store = some s) : s ∈ store ∧ s.email = email := by
  unfold findByEmail at h
  exact ⟨List.mem_of_find?_eq_some h, by simpa using List.find?_some h⟩

theorem retryLoop_some {store : List Session} {session : Option Session} {draws : List Nat}
    {id : Nat} (h : retryLoop store session draws = some id) :
    (∃ u ∈ draws, id = drawSessionId u) ∧ findBySessionId id store = none ∧
      ∀ s, session = some s → id ∉ s.sessionIdList := by
  induction draws with
  | nil => simp [retryLoop] at h
  | cons u rest ih =>
    simp only [retryLoop] at h
    split at h
    · obtain ⟨⟨v, hv, e⟩, h2, h3⟩ := ih h
      exact ⟨⟨v, List.mem_cons_of_mem _ hv, e⟩, h2, h3⟩
    · rename_i hc
      simp only [Option.some.injEq] at h
      subst h
      simp only [Bool.or_eq_true, not_or, Bool.not_eq_true] at hc
      refine ⟨⟨u, List.mem_cons_self _ _, rfl⟩, ?_, ?_⟩
      · simpa using hc.1
      · intro s hs
        subst hs
        simpa using hc.2

theorem retryLoop_isSome_iff (store : List Session) (session : Option Session)
    (draws : List Nat) :
    (retryLoop store session draws).isSome = true ↔
      ∃ u ∈ draws, findBySessionId (drawSessionId u) store = none ∧
        ∀ s, session = some s → drawSessionId u ∉ s.sessionIdList := by
  induction draws with
  | nil => simp [retryLoop]
  | cons u rest ih =>
    simp only [retryLoop]
    split
    · rename_i hc
      rw [ih]
      constructor
      · rintro ⟨v, hv, h⟩
        exact ⟨v, List.mem_cons_of_mem _ hv, h⟩
      · rintro ⟨v, hv, h1, h2⟩
        rcases List.mem_cons.1 hv with rfl | hv
        · exfalso
          simp only [Bool.or_eq_true] at hc
          rcases hc with hc | hc
          · simp [h1] at hc
          · cases session with
            | none => simp at hc
            | some s =>
              exact h2 s rfl (by simpa using hc)
        · exact ⟨v, hv, h1, h2⟩
    · rename_i hc
      simp only [Bool.or_eq_true, not_or, Bool.not_eq_true] at hc
      simp only [Option.isSome_some, true_iff]
      refine ⟨u, List.mem_cons_self _ _, by simpa using hc.1, ?_⟩
      intro s hs
      subst hs
      simpa using hc.2

theorem mem_saveFirst {p : Session → Bool} {f : Session → Session} {store : List Session}
    {x : Session} (h : x ∈ saveFirst p f store) :
    x ∈ store ∨ ∃ s, store.find? p = some s ∧ x = f s := by
  induction store with
  | nil => simp [saveFirst] at h
  | cons a rest ih =>
    simp only [saveFirst] at h
    by_cases hp : p a = true
    · rw [if_pos hp, List.mem_cons] at h
      rcases h with h | h
      · exact Or.inr ⟨a, by simp [List.find?, hp], h⟩
      · exact Or.inl (List.mem_cons_of_mem _ h)
    · rw [if_neg hp, List.mem_cons] at h
      rcases h with h | h
      · exact Or.inl (h ▸ List.mem_cons_self _ _)
      · rcases ih h with h | ⟨s, hs, e⟩
        · exact Or.inl (List.mem_cons_of_mem _ h)
        · refine Or.inr ⟨s, ?_, e⟩
          simp only [Bool.not_eq_true] at hp
          simp [List.find?, hp, hs]

theorem saveFirst_map_eq {α : Type} (g : Session → α) (p : Session → Bool)
    (f : Session → Session) (hg : ∀ s, g (f s) = g s) (store : List Session) :
    (saveFirst p f store).map g = store.map g := by
  induction store with
  | nil => rfl
  | cons a rest ih =>
    simp only [saveFirst]
    split
    · simp [hg]
    · simp [ih]

theorem saveFirst_map_nodup {α : Type} (g : Session → α) {p : Session → Bool}
    {f : Session → Session} {store : List Session} (hn : (store.map g).Nodup)
    (hf : ∀ s, store.find? p = some s → g (f s) = g s ∨ g (f s) ∉ store.map g) :
    ((saveFirst p f store).map g).Nodup := by
  induction store with
  | nil => simp [saveFirst]
  | cons a rest ih =>
    simp only [List.map_cons, List.nodup_cons] at hn
    simp only [saveFirst]
    by_cases hp : p a = true
    · rw [if_pos hp, List.map_cons, List.nodup_cons]
      refine ⟨?_, hn.2⟩
      rcases hf a (by simp [List.find?, hp]) with h | h
      · rw [h]; exact hn.1
      · intro hm
        exact h (by simp only [List.map_cons]; exact List.mem_cons_of_mem _ hm)
    · rw [if_neg hp, List.map_cons, List.nodup_cons]
      simp only [Bool.not_eq_true] at hp
      have hf' : ∀ s, rest.find? p = some s → g (f s) = g s ∨ g (f s) ∉ rest.map g := by
        intro s hs
        rcases hf s (by simp [List.find?, hp, hs]) with h | h
        · exact Or.inl h
        · exact Or.inr (fun hm => h (by simp only [List.map_cons]; exact List.mem_cons_of_mem _ hm))
      refine ⟨?_, ih hn.2 hf'⟩
      intro hm
      obtain ⟨x, hx, hxe⟩ := List.mem_map.1 hm
      rcases mem_saveFirst hx with hx | ⟨s, hs, e⟩
      · exact hn.1 (hxe ▸ List.mem_map_of_mem g hx)
      · subst e
        rcases hf s (by simp [List.find?, hp, hs]) with h | h
        · rw [h] at hxe
          exact hn.1 (hxe ▸ List.mem_map_of_mem g (List.mem_of_find?_eq_some hs))
        · exact h (by simp [hxe])

theorem run_invariant (secret : String) (P : List Session → Prop)
    (hstep : ∀ store op, P store → P (step secret store op)) :
    ∀ (ops : List Op) (store : List Session), P store → P (run secret store ops) := by
  intro ops
  induction ops with
  | nil => intro store h; exact h
  | cons op rest ih =>
    intro store h
    exact ih _ (hstep store op h)

theorem forall_mem_saveFirst {Q : Session → Prop} {p : Session → Bool} {f : Session → Session}
    {store : List Session} (h : ∀ s ∈ store, Q s)
    (hf : ∀ s, store.find? p = some s → Q s → Q (f s)) : ∀ x ∈ saveFirst p f store, Q x := by
  intro x hx
  rcases mem_saveFirst hx with hx | ⟨s, hs, e⟩
  · exact h x hx
  · exact e ▸ hf s hs (h s (List.mem_of_find?_eq_some hs))

theorem find?_saveFirst (p : Session → Bool) (f : Session → Session) {store : List Session}
    {s : Session} (h : store.find? p = some s) (hp : p (f s) = true) :
    (saveFirst p f store).find? p = some (f s) := by
  induction store with
  | nil => simp at h
  | cons a rest ih =>
    simp only [saveFirst]
    by_cases ha : p a = true
    · simp only [List.find?, ha, Option.some.injEq] at h
      subst h
      simp [ha, List.find?, hp]
    · simp only [Bool.not_eq_true] at ha
      simp only [List.find?, ha] at h
      simp [ha, List.find?, ih h]

theorem submitPosttest_store (sessionId : Option Nat) (answers : Option Answers)
    (store : List Session) :
    (submitPosttest sessionId answers store).store = store ∨
      (submitPosttest sessionId answers store).store =
        saveFirst (fun s => s.sessionId == sessionId.getD 0) (completePostTest answers) store := by
  unfold submitPosttest
  split
  · exact Or.inl rfl
  · split
    · exact Or.inl rfl
    · split
      · exact Or.inl rfl
      · exact Or.inr rfl

theorem submitPretest_store (sessionId : Option Nat) (userName email : Option String)
    (answers : Option Answers) (store : List Session) :
    (submitPretest sessionId userName email answers store).store = store ∨
      (submitPretest sessionId userName email answers store).store =
        saveFirst (fun s => s.sessionId == sessionId.getD 0)
          (completePreTest userName email answers) store := by
  unfold submitPretest
  split
  · exact Or.inl rfl
  · split
    · exact Or.inl rfl
    · split
      · exact Or.inl rfl
      · exact Or.inr rfl

theorem verifyEmail_store (secret : String) (now : Nat) (token : Option Token)
    (store : List Session) :
    (verifyEmail secret now token store).store = store ∨
      ∃ email, (verifyEmail secret now token store).store =
        saveFirst (fun s => s.email == email) markVerified store := by
  unfold verifyEmail
  split
  · exact Or.inl rfl
  · split
    · exact Or.inl rfl
    · split
      · exact Or.inl rfl
      · exact Or.inr ⟨_, rfl⟩

theorem sendVerification_store (secret : String) (now : Nat) (mailOk : Bool) (draws : List Nat)
    (email : Option String) (store : List Session) :
    (sendVerification secret now mailOk draws email store).store = store ∨
      (∃ id, retryLoop store (findByEmail (email.getD "") store) draws = some id ∧
        findByEmail (email.getD "") store = none ∧
        (sendVerification secret now mailOk draws email store).store = store ++
          [{ email := email.getD "", token := some (jwtSign secret now (email.getD "")),
             verified := false, sessionId := id }]) ∨
      (∃ id, retryLoop store (findByEmail (email.getD "") store) draws = some id ∧
        (sendVerification secret now mailOk draws email store).store =
          saveFirst (fun r => r.email == email.getD "") (restartCycle id) store) := by
  unfold sendVerification
  split
  · exact Or.inl rfl
  · simp only
    split
    · exact Or.inl rfl
    · split
      · exact Or.inl rfl
      · rename_i id hid
        split
        · rename_i s hs
          split
          · exact Or.inl rfl
          · exact Or.inr (Or.inr ⟨id, hid, rfl⟩)
        · rename_i hs
          refine Or.inr (Or.inl ⟨id, hid, hs, ?_⟩)
          cases mailOk <;> rfl

theorem step_readOnly (secret : String) (store : List Session) (op : Op) :
    (∃ a b, op = Op.submitPosttest a b) ∨ (∃ a b c d, op = Op.sendVerification a b c d) ∨
      (∃ a b, op = Op.verifyEmail a b) ∨ (∃ a b c d, op = Op.submitPretest a b c d) ∨
      op = Op.clearDatabase ∨ step secret store op = store := by
  cases op
  case submitPosttest a b => exact Or.inl ⟨a, b, rfl⟩
  case sendVerification a b c d => exact Or.inr (Or.inl ⟨a, b, c, d, rfl⟩)
  case verifyEmail a b => exact Or.inr (Or.inr (Or.inl ⟨a, b, rfl⟩))
  case submitPretest a b c d => exact Or.inr (Or.inr (Or.inr (Or.inl ⟨a, b, c, d, rfl⟩)))
  case clearDatabase => exact Or.inr (Or.inr (Or.inr (Or.inr (Or.inl rfl))))
  all_goals
    refine Or.inr (Or.inr (Or.inr (Or.inr (Or.inr ?_))))
    simp only [step, handle]
  · unfold getPosttestAnswers; split_ifs <;> try rfl
    split <;> try rfl
    split <;> rfl
  · unfold checkPretestCompletion; split_ifs <;> try rfl
    split <;> try rfl
    split <;> rfl
  · unfold verifyPosttest; split_ifs <;> try rfl
    split <;> try rfl
    split <;> rfl
  · unfold getPretestAnswers; split_ifs <;> try rfl
    split <;> try rfl
    split <;> rfl
  · unfold getSession; split_ifs <;> try rfl
    split <;> try rfl
    split <;> rfl
  · unfold generateCertificate; split_ifs <;> try rfl
    split <;> rfl
  · rfl

theorem run_invariant_of_admissible (secret : String) (G : List Session → Op → Bool)
    (P : List Session → Prop)
    (hstep : ∀ store op, G store op = true → P store → P (step secret store op)) :
    ∀ (ops : List Op) (store : List Session),
      admissible G secret store ops = true → P store → P (run secret store ops) := by
  intro ops
  induction ops with
  | nil => intro store _ h; exact h
  | cons op rest ih =>
    intro store hadm h
    simp only [admissible, Bool.and_eq_true] at hadm
    exact ih _ hadm.2 (hstep store op hadm.1 h)

theorem step_forall (secret : String) (Q : Session → Prop) (store : List Session) (op : Op)
    (hnew : ∀ s : Session, s.verified = false → s.preTest = false → s.postTest = false →
      s.completed = false → Q s)
    (hrestart : ∀ id s, Q s → Q (restartCycle id s))
    (hverify : ∀ s, Q s → Q (markVerified s))
    (hpre : ∀ sid u e a s, op = Op.submitPretest sid u e a →
      findBySessionId (sid.getD 0) store = some s → Q s → Q (completePreTest u e a s))
    (hpost : ∀ sid a s, op = Op.submitPosttest sid a →
      findBySessionId (sid.getD 0) store = some s → Q s → Q (completePostTest a s))
    (h : ∀ s ∈ store, Q s) : ∀ s ∈ step secret store op, Q s := by
  rcases step_readOnly secret store op with ⟨a, b, rfl⟩ | ⟨a, b, c, d, rfl⟩ | ⟨a, b, rfl⟩ |
    ⟨a, b, c, d, rfl⟩ | rfl | hro
  · simp only [step, handle]
    rcases submitPosttest_store a b store with e | e <;> rw [e]
    · exact h
    · exact forall_mem_saveFirst h (fun s hs hq => hpost a b s rfl hs hq)
  · simp only [step, handle]
    rcases sendVerification_store secret a b c d store with e | ⟨id, _, _, e⟩ | ⟨id, _, e⟩ <;>
      rw [e]
    · exact h
    · intro s hs
      rcases List.mem_append.1 hs with hs | hs
      · exact h s hs
      · simp only [List.mem_singleton] at hs
        subst hs
        exact hnew _ rfl rfl rfl rfl
    · exact forall_mem_saveFirst h (fun s _ hq => hrestart id s hq)
  · simp only [step, handle]
    rcases verifyEmail_store secret a b store with e | ⟨email, e⟩ <;> rw [e]
    · exact h
    · exact forall_mem_saveFirst h (fun s _ hq => hverify s hq)
  · simp only [step, handle]
    rcases submitPretest_store a b c d store with e | e <;> rw [e]
    · exact h
    · exact forall_mem_saveFirst h (fun s hs hq => hpre a b c d s rfl hs hq)
  · intro s hs
    simp [step, handle, clearDatabase] at hs
  · rw [hro]; exact h

theorem step_sessionId_nodup (secret : String) (store : List Session) (op : Op)
    (h : (store.map Session.sessionId).Nodup) :
    ((step secret store op).map Session.sessionId).Nodup := by
  rcases step_readOnly secret store op with ⟨a, b, rfl⟩ | ⟨a, b, c, d, rfl⟩ | ⟨a, b, rfl⟩ |
    ⟨a, b, c, d, rfl⟩ | rfl | hro
  · simp only [step, handle]
    rcases submitPosttest_store a b store with e | e <;> rw [e]
    · exact h
    · rw [saveFirst_map_eq Session.sessionId _ (completePostTest b) (fun _ => rfl)]; exact h
  · simp only [step, handle]
    rcases sendVerification_store secret a b c d store with e | ⟨id, hid, _, e⟩ | ⟨id, hid, e⟩ <;>
      rw [e]
    · exact h
    · have hfresh := findBySessionId_eq_none.1 (retryLoop_some hid).2.1
      rw [List.map_append, List.nodup_append]
      refine ⟨h, by simp, ?_⟩
      intro x hx hx'
      simp only [List.map_cons, List.map_nil, List.mem_singleton] at hx'
      obtain ⟨s, hs, rfl⟩ := List.mem_map.1 hx
      exact hfresh s hs hx'
    · have hfresh := findBySessionId_eq_none.1 (retryLoop_some hid).2.1
      refine saveFirst_map_nodup Session.sessionId h (fun s _ => Or.inr ?_)
      intro hm
      obtain ⟨r, hr, hre⟩ := List.mem_map.1 hm
      exact hfresh r hr hre
  · simp only [step, handle]
    rcases verifyEmail_store secret a b store with e | ⟨email, e⟩ <;> rw [e]
    · exact h
    · rw [saveFirst_map_eq Session.sessionId _ markVerified (fun _ => rfl)]; exact h
  · simp only [step, handle]
    rcases submitPretest_store a b c d store with e | e <;> rw [e]
    · exact h
    · rw [saveFirst_map_eq Session.sessionId _ (completePreTest b c d) (fun _ => rfl)]; exact h
  · simp [step, handle, clearDatabase]
  · rw [hro]; exact h

theorem step_email_nodup (secret : String) (store : List Session) (op : Op)
    (hg : emailUnused store op = true) (h : (store.map Session.email).Nodup) :
    ((step secret store op).map Session.email).Nodup := by
  rcases step_readOnly secret store op with ⟨a, b, rfl⟩ | ⟨a, b, c, d, rfl⟩ | ⟨a, b, rfl⟩ |
    ⟨a, b, c, d, rfl⟩ | rfl | hro
  · simp only [step, handle]
    rcases submitPosttest_store a b store with e | e <;> rw [e]
    · exact h
    · rw [saveFirst_map_eq Session.email _ (completePostTest b) (fun _ => rfl)]; exact h
  · simp only [step, handle]
    rcases sendVerification_store secret a b c d store with e | ⟨id, _, hnone, e⟩ | ⟨id, _, e⟩ <;>
      rw [e]
    · exact h
    · have hfresh := findByEmail_eq_none.1 hnone
      rw [List.map_append, List.nodup_append]
      refine ⟨h, by simp, ?_⟩
      intro x hx hx'
      simp only [List.map_cons, List.map_nil, List.mem_singleton] at hx'
      obtain ⟨s, hs, rfl⟩ := List.mem_map.1 hx
      exact hfresh s hs hx'
    · rw [saveFirst_map_eq Session.email _ (restartCycle id) (fun _ => rfl)]; exact h
  · simp only [step, handle]
    rcases verifyEmail_store secret a b store with e | ⟨email, e⟩ <;> rw [e]
    · exact h
    · rw [saveFirst_map_eq Session.email _ markVerified (fun _ => rfl)]; exact h
  · simp only [step, handle]
    rcases submitPretest_store a b c d store with e | e <;> rw [e]
    · exact h
    · refine saveFirst_map_nodup Session.email h (fun s hs => ?_)
      simp only [emailUnused, Bool.or_eq_true, Bool.not_eq_true'] at hg
      rcases hg with hg | hg
      · left; simp [completePreTest, hg]
      · have hs' : findBySessionId (a.getD 0) store = some s := hs
        rw [hs'] at hg
        simp only [Bool.or_eq_true, beq_iff_eq, Option.isNone_iff_eq_none] at hg
        rcases hg with hg | hg
        · left
          simp only [completePreTest]
          split <;> simp [hg]
        · by_cases ht : truthyStr c = true
          · right
            simp only [completePreTest, ht, if_true]
            intro hm
            obtain ⟨r, hr, hre⟩ := List.mem_map.1 hm
            exact findByEmail_eq_none.1 hg r hr hre
          · left; simp [completePreTest, ht]
  · simp [step, handle, clearDatabase]
  · rw [hro]; exact h

/-! ## The claims -/

/-- C1, as stated, fails: on the reachable `sharedStore` two records carry `a@x.com`;
the loop of a request for `a@x.com` exits with 101, which is in the `sessionIdList` of
the second of them. -/
theorem retryLoop_history_counterexample :
    retryLoop sharedStore (findByEmail "a@x.com" sharedStore) [u101] = some 101 ∧
      sharedStore.map (fun s => (s.sessionId, s.email, s.sessionIdList)) =
        [(100, "a@x.com", []), (102, "a@x.com", [101])] := by
  decide

/-- C1, amended: whenever the retry loop of `POST /send-verification` exits, the
`sessionId` it exits with lies in `[100, 999]`, is the `sessionId` of no session of the
store and is not in the `sessionIdList` of the session that `findOne` returns for the
email (the first record carrying it); when that session is completed the re-request
writes the id back to it, and the id differs from its previous id and from every id
of its history. -/
theorem sendVerification_sessionId_fresh (secret : String) (now : Nat) (mailOk : Bool)
    (store : List Session) (email : String) (draws : List Nat) (id : Nat)
    (hexit : retryLoop store (findByEmail email store) draws = some id) :
    100 ≤ id ∧ id ≤ 999 ∧
      (∀ s ∈ store, s.sessionId ≠ id) ∧
      (∀ s, findByEmail email store = some s → id ∉ s.sessionIdList) ∧
      (∀ s, email ≠ "" → findByEmail email store = some s → s.completed = true →
        findByEmail email (sendVerification secret now mailOk draws (some email) store).store =
            some { s with completed := false, preTest := false, postTest := false,
                          sessionId := id } ∧
          id ≠ s.sessionId ∧ ∀ old ∈ s.sessionIdList, id ≠ old) := by
  obtain ⟨⟨u, _, hu⟩, hstore, hlist⟩ := retryLoop_some hexit
  have hfresh := findBySessionId_eq_none.1 hstore
  refine ⟨hu ▸ (drawSessionId_bounds u).1, hu ▸ (drawSessionId_bounds u).2, hfresh, hlist, ?_⟩
  intro s hne hs hc
  refine ⟨?_, fun e => hfresh s (findByEmail_some hs).1 e.symm,
    fun old hold e => hlist s hs (e ▸ hold)⟩
  have htruthy : truthyStr (some email) = true := by simp [truthyStr, hne]
  have hout : (sendVerification secret now mailOk draws (some email) store).store =
      saveFirst (fun r => r.email == email) (restartCycle id) store := by
    have hexit2 := hexit
    rw [hs] at hexit2
    simp [sendVerification, htruthy, hs, hc, hexit2]
  rw [hout]
  have hfind : store.find? (fun r => r.email == email) = some s := hs
  have := find?_saveFirst _ (restartCycle id) hfind
    (by simpa [restartCycle] using (findByEmail_some hs).2)
  simpa [findByEmail, restartCycle] using this

/-- C2: a token rejected by the verifier makes `GET /verify-email` answer 400 and
leave the store as it was. -/
theorem verifyEmail_rejected_token (secret : String) (now : Nat) (token : Token)
    (store : List Session) (hrejected : jwtVerify secret now token = none) :
    verifyEmail secret now (some token) store =
      ⟨store, [msg 400 "Invalid or expired token"], []⟩ := by
  simp [verifyEmail, hrejected]

/-- C3: after a successful `POST /submit-pretest`, a second one for the same
`sessionId` with a non-empty `userName` answers 400 and leaves the store exactly as
the first submission left it. -/
theorem submitPretest_twice (store : List Session) (sessionId : Option Nat)
    (userName email : Option String) (answers : Option Answers)
    (userName2 email2 : Option String) (answers2 : Option Answers)
    (hfirst : (submitPretest sessionId userName email answers store).responses =
      [msg 200 "Pre-Test marked as complete"])
    (hname : truthyStr userName2 = true) :
    submitPretest sessionId userName2 email2 answers2
        (submitPretest sessionId userName email answers store).store =
      ⟨(submitPretest sessionId userName email answers store).store,
        [msg 400 "Pre-Test has already been submitted."], []⟩ := by
  unfold submitPretest at hfirst
  split at hfirst
  · simp [msg] at hfirst
  · rename_i hreq
    split at hfirst
    · simp [msg] at hfirst
    · rename_i s hs
      split at hfirst
      · simp [msg] at hfirst
      · rename_i hpre
        simp only [Bool.or_eq_true, Bool.not_eq_true', not_or, Bool.not_eq_false] at hreq
        obtain ⟨hid, hnm⟩ := hreq
        have hfind : store.find? (fun r => r.sessionId == sessionId.getD 0) = some s := hs
        have hfound := find?_saveFirst _ (completePreTest userName email answers) hfind
          (by simpa [completePreTest] using (findBySessionId_some hs).2)
        have hstore : (submitPretest sessionId userName email answers store).store =
            saveFirst (fun r => r.sessionId == sessionId.getD 0)
              (completePreTest userName email answers) store := by
          simp [submitPretest, hid, hnm, hs, hpre]
        rw [hstore]
        have hfound' : findBySessionId (sessionId.getD 0)
            (saveFirst (fun r => r.sessionId == sessionId.getD 0)
              (completePreTest userName email answers) store) =
            some (completePreTest userName email answers s) := hfound
        simp [submitPretest, hid, hname, hfound', completePreTest]

/-- The freshness theorem on the completed session of `a@x.com`: the first draw (100) is rejected, the second (101) is accepted. -/
theorem sendVerification_sessionId_fresh_witness :
    retryLoop completedStore (findByEmail "a@x.com" completedStore) [0, u101] = some 101 ∧
      100 ≤ 101 ∧ 101 ≤ 999 ∧ ∀ s ∈ completedStore, s.sessionId ≠ 101 :=
  have h := sendVerification_sessionId_fresh "k" 10 true completedStore "a@x.com" [0, u101] 101
    (by decide)
  ⟨by decide, h.1, h.2.1, h.2.2.1⟩

/-- The rejection theorem on the token of `a@x.com` presented exactly when it expires. -/
theorem verifyEmail_rejected_token_witness :
    jwtVerify "k" 3600 (jwtSign "k" 0 "a@x.com") = none ∧
      verifyEmail "k" 3600 (some (jwtSign "k" 0 "a@x.com")) pendingStore =
        ⟨pendingStore, [msg 400 "Invalid or expired token"], []⟩ :=
  ⟨by decide, verifyEmail_rejected_token "k" 3600 (jwtSign "k" 0 "a@x.com") pendingStore
    (by decide)⟩

/-- The double-submission theorem on session 100: the second request, under another name and email, is refused. -/
theorem submitPretest_twice_witness :
    submitPretest (some 100) (some "Mallory") (some "m@x.com") (some [("q1", "d")])
        (submitPretest (some 100) (some "Alice") none (some [("q1", "b")]) pendingStore).store =
      ⟨(submitPretest (some 100) (some "Alice") none (some [("q1", "b")]) pendingStore).store,
        [msg 400 "Pre-Test has already been submitted."], []⟩ :=
  submitPretest_twice pendingStore (some 100) (some "Alice") none (some [("q1", "b")])
    (some "Mallory") (some "m@x.com") (some [("q1", "d")]) (by decide) (by decide)

/-- C4, as stated, fails: `a@x.com` has an unverified session, and the request
creates no session and dispatches no email. -/
theorem sendVerification_pending_counterexample :
    (findByEmail "a@x.com" pendingStore).map Session.verified = some false ∧
      (sendVerification "k" 10 true [u101] (some "a@x.com") pendingStore).store = pendingStore ∧
      (sendVerification "k" 10 true [u101] (some "a@x.com") pendingStore).mails = [] := by
  decide

/-- C4, amended: when the retry loop exits, a request for a non-empty email that has
no session appends exactly one session for it (the only one for that email) and,
the transport succeeding, dispatches exactly one email, to that address, whose token
verifies to the email until the hour is over; a request for an email for which
`findOne` returns (as the first record carrying it) a session that is unverified and
not completed creates no session and sends no email, and answers with the `sessionId`
of that session. -/
theorem sendVerification_new_or_pending (secret : String) (now : Nat) (draws : List Nat)
    (email : String) (store : List Session) (id : Nat) (hemail : email ≠ "")
    (hexit : retryLoop store (findByEmail email store) draws = some id) :
    (findByEmail email store = none →
      (sendVerification secret now true draws (some email) store).store =
          store ++ [{ email := email, token := some (jwtSign secret now email),
                      verified := false, sessionId := id }] ∧
        ((sendVerification secret now true draws (some email) store).store.filter
          (fun s => s.email == email)).length = 1 ∧
        (sendVerification secret now true draws (some email) store).mails =
          [⟨email, jwtSign secret now email⟩] ∧
        ∀ t, t < now + 3600 → jwtVerify secret t (jwtSign secret now email) = some email) ∧
      (∀ s mailOk, findByEmail email store = some s → s.verified = false →
        s.completed = false →
        sendVerification secret now mailOk draws (some email) store =
          ⟨store, [⟨200, Body.json (some "Session already exists") (some s.sessionId) none⟩],
            []⟩) := by
  have htruthy : truthyStr (some email) = true := by simp [truthyStr, hemail]
  constructor
  · intro hnone
    have hexit2 := hexit
    rw [hnone] at hexit2
    have hfilter : store.filter (fun s => s.email == email) = [] := by
      rw [List.filter_eq_nil_iff]
      intro s hs
      simpa using findByEmail_eq_none.1 hnone s hs
    refine ⟨?_, ?_, ?_, ?_⟩
    · simp [sendVerification, htruthy, hnone, hexit2]
    · simp [sendVerification, htruthy, hnone, hexit2, List.filter_append, hfilter]
    · simp [sendVerification, htruthy, hnone, hexit2]
    · intro t ht
      simp [jwtVerify, jwtSign, ht]
  · intro s mailOk hs hv hc
    have hexit2 := hexit
    rw [hs] at hexit2
    simp [sendVerification, htruthy, hs, hv, hc, hexit2]

/-- The amended creation theorem on `pendingStore`: a first request of `b@x.com`
(first conjunct) and a repeated request of the unverified `a@x.com` (second). -/
theorem sendVerification_new_or_pending_witness :
    (retryLoop pendingStore (findByEmail "b@x.com" pendingStore) [0, u101] = some 101 ∧
        (sendVerification "k" 5 true [0, u101] (some "b@x.com") pendingStore).mails =
          [⟨"b@x.com", jwtSign "k" 5 "b@x.com"⟩]) ∧
      (retryLoop pendingStore (findByEmail "a@x.com" pendingStore) [u101] = some 101 ∧
        sendVerification "k" 10 true [u101] (some "a@x.com") pendingStore =
          ⟨pendingStore, [⟨200, Body.json (some "Session already exists") (some 100) none⟩],
            []⟩) :=
  ⟨⟨by decide,
      ((sendVerification_new_or_pending "k" 5 [0, u101] "b@x.com" pendingStore 101 (by decide)
        (by decide)).1 (by decide)).2.2.1⟩,
    ⟨by decide,
      (sendVerification_new_or_pending "k" 10 [u101] "a@x.com" pendingStore 101 (by decide)
        (by decide)).2 sessionA true (by decide) rfl rfl⟩⟩

/-- C5, as stated, fails: the pre-test submission on the unverified session 100
succeeds and leaves a session with `preTest = true` and `verified = false`. -/
theorem pretest_unverified_counterexample :
    (submitPretest (some 100) (some "Alice") none (some [("q1", "b")]) pendingStore).responses =
        [msg 200 "Pre-Test marked as complete"] ∧
      (run "k" [] [requestA,
          Op.submitPretest (some 100) (some "Alice") none (some [("q1", "b")])]).map
        (fun s => (s.preTest, s.verified)) = [(true, false)] := by
  decide

/-- C5, amended: in every state reached from the empty store by requests whose
pre-test and post-test submissions address verified sessions, every session with
`preTest` or `postTest` set is verified. -/
theorem progress_gated_on_verified_targets (secret : String) (ops : List Op)
    (hadm : admissible targetVerified secret [] ops = true) (s : Session)
    (hs : s ∈ run secret [] ops) (hprogress : s.preTest = true ∨ s.postTest = true) :
    s.verified = true := by
  have hinv : ∀ s ∈ run secret [] ops, (s.preTest = true ∨ s.postTest = true) →
      s.verified = true := by
    refine run_invariant_of_admissible secret targetVerified
      (fun store => ∀ s ∈ store, (s.preTest = true ∨ s.postTest = true) → s.verified = true)
      ?_ ops [] hadm (by simp)
    intro store op hg h
    refine step_forall secret _ store op ?_ ?_ ?_ ?_ ?_ h
    · intro s _ hpre hpost _ hp
      simp [hpre, hpost] at hp
    · intro id s hq hp
      simp [restartCycle] at hp
    · intro s _ _
      simp [markVerified]
    · intro sid u e a s hop hfind _ _
      subst hop
      simp only [targetVerified, hfind] at hg
      simpa [completePreTest] using hg
    · intro sid a s hop hfind _ _
      subst hop
      simp only [targetVerified, hfind] at hg
      simpa [completePostTest] using hg
  exact hinv s hs hprogress

/-- The gated-progress theorem on a full cycle of `a@x.com`. -/
theorem progress_gated_on_verified_targets_witness :
    admissible targetVerified "k" [] fullCycle = true ∧ cycledSession ∈ run "k" [] fullCycle ∧
      cycledSession.preTest = true ∧ cycledSession.verified = true :=
  ⟨by decide, by decide, rfl,
    progress_gated_on_verified_targets "k" fullCycle (by decide) cycledSession (by decide)
      (Or.inl rfl)⟩

/-- C6, as stated, fails: a post-test submission on a session without a pre-test
succeeds and leaves `postTest = true` with `preTest = false`. -/
theorem posttest_before_pretest_counterexample :
    (submitPosttest (some 100) (some [("q2", "c")]) pendingStore).responses =
        [msg 200 "Post-test marked as complete"] ∧
      completedStore.map (fun s => (s.postTest, s.preTest)) = [(true, false)] := by
  decide

/-- C6, amended: in every state reached from the empty store by requests whose
post-test submissions address sessions with the pre-test recorded, every session
with `postTest` set has `preTest` set. -/
theorem postTest_implies_preTest_on_pretested_targets (secret : String) (ops : List Op)
    (hadm : admissible targetPreTested secret [] ops = true) (s : Session)
    (hs : s ∈ run secret [] ops) (hpost : s.postTest = true) : s.preTest = true := by
  have hinv : ∀ s ∈ run secret [] ops, s.postTest = true → s.preTest = true := by
    refine run_invariant_of_admissible secret targetPreTested
      (fun store => ∀ s ∈ store, s.postTest = true → s.preTest = true) ?_ ops [] hadm (by simp)
    intro store op hg h
    refine step_forall secret _ store op ?_ ?_ ?_ ?_ ?_ h
    · intro s _ _ hpost hc hp
      simp [hpost] at hp
    · intro id s _ hp
      simp [restartCycle] at hp
    · intro s hq
      simpa [markVerified] using hq
    · intro sid u e a s _ _ _ _
      simp [completePreTest]
    · intro sid a s hop hfind _ _
      subst hop
      simp only [targetPreTested, hfind] at hg
      simpa [completePostTest] using hg
  exact hinv s hs hpost

/-- The ordering theorem on a full cycle of `a@x.com`. -/
theorem postTest_implies_preTest_on_pretested_targets_witness :
    admissible targetPreTested "k" [] fullCycle = true ∧ cycledSession ∈ run "k" [] fullCycle ∧
      cycledSession.postTest = true ∧ cycledSession.preTest = true :=
  ⟨by decide, by decide, rfl,
    postTest_implies_preTest_on_pretested_targets "k" fullCycle (by decide) cycledSession
      (by decide) rfl⟩

theorem ne_of_map_nodup {α : Type} (g : Session → α) {store : List Session}
    (hn : (store.map g).Nodup) {i j : Nat} {a b : Session} (hi : store[i]? = some a)
    (hj : store[j]? = some b) (hij : i ≠ j) : g a ≠ g b := by
  obtain ⟨hi1, rfl⟩ := List.getElem?_eq_some_iff.1 hi
  obtain ⟨hj1, rfl⟩ := List.getElem?_eq_some_iff.1 hj
  intro he
  have hi2 : i < (store.map g).length := by simpa using hi1
  have hj2 : j < (store.map g).length := by simpa using hj1
  have h : (store.map g)[i] = (store.map g)[j] := by simpa using he
  exact hij ((List.Nodup.getElem_inj_iff hn).1 h)

/-- C7, as stated, fails: after `emailTakeover` two session records carry
`a@x.com`. -/
theorem email_shared_counterexample :
    (run "k" [] emailTakeover).map (fun s => (s.sessionId, s.email)) =
      [(100, "a@x.com"), (101, "a@x.com")] := by
  decide

/-- C7, amended: in every state reached from the empty store by requests served one
after the other, without interleaving, whose pre-test submissions supply no email,
the email of the addressed session, or an email that no session carries, no two
distinct session records carry the same email. -/
theorem email_unique_on_unused_emails (secret : String) (ops : List Op)
    (hadm : admissible emailUnused secret [] ops = true) (i j : Nat) (a b : Session)
    (hi : (run secret [] ops)[i]? = some a) (hj : (run secret [] ops)[j]? = some b)
    (hij : i ≠ j) : a.email ≠ b.email := by
  have hn : ((run secret [] ops).map Session.email).Nodup :=
    run_invariant_of_admissible secret emailUnused
      (fun store => (store.map Session.email).Nodup)
      (fun store op hg h => step_email_nodup secret store op hg h) ops [] hadm (by simp)
  exact ne_of_map_nodup Session.email hn hi hj hij

/-- The email-uniqueness theorem on `emailUpdates`, where one pre-test moves a session
to an unused email and another restates the email of its session; the trace
`emailTakeover` does not meet the condition. -/
theorem email_unique_on_unused_emails_witness :
    admissible emailUnused "k" [] emailUpdates = true ∧
      admissible emailUnused "k" [] emailTakeover = false ∧
      (run "k" [] emailUpdates)[0]? = some updatedA ∧
      (run "k" [] emailUpdates)[1]? = some updatedB ∧
      updatedA.email ≠ updatedB.email :=
  ⟨by decide, by decide, by decide, by decide,
    email_unique_on_unused_emails "k" emailUpdates (by decide) 0 1 updatedA updatedB
      (by decide) (by decide) (by decide)⟩

/-- C8: in every state reached from the empty store by requests served one after
the other, no two distinct sessions with `completed = false` have the same
`sessionId`. -/
theorem active_sessionIds_distinct (secret : String) (ops : List Op) (i j : Nat)
    (a b : Session) (hi : (run secret [] ops)[i]? = some a)
    (hj : (run secret [] ops)[j]? = some b) (hij : i ≠ j) (_ha : a.completed = false)
    (_hb : b.completed = false) : a.sessionId ≠ b.sessionId := by
  have hn : ((run secret [] ops).map Session.sessionId).Nodup :=
    run_invariant secret (fun store => (store.map Session.sessionId).Nodup)
      (fun store op h => step_sessionId_nodup secret store op h) ops [] (by simp)
  exact ne_of_map_nodup Session.sessionId hn hi hj hij

/-- The id-uniqueness theorem on two registrations. -/
theorem active_sessionIds_distinct_witness :
    (run "k" [] [requestA, requestB])[0]? = some sessionA ∧
      (run "k" [] [requestA, requestB])[1]? = some sessionB ∧
      sessionA.completed = false ∧ sessionB.completed = false ∧
      sessionA.sessionId ≠ sessionB.sessionId :=
  ⟨by decide, by decide, rfl, rfl,
    active_sessionIds_distinct "k" [requestA, requestB] 0 1 sessionA sessionB (by decide)
      (by decide) (by decide) rfl rfl⟩

/-- C9: in every state reached from the empty store, every session with
`completed = true` has `postTest = true`. -/
theorem completed_implies_postTest (secret : String) (ops : List Op) (s : Session)
    (hs : s ∈ run secret [] ops) (hc : s.completed = true) : s.postTest = true := by
  have hinv : ∀ s ∈ run secret [] ops, s.completed = true → s.postTest = true := by
    refine run_invariant secret
      (fun store => ∀ s ∈ store, s.completed = true → s.postTest = true) ?_ ops [] (by simp)
    intro store op h
    refine step_forall secret _ store op ?_ ?_ ?_ ?_ ?_ h
    · intro s _ _ _ hc hp
      simp [hc] at hp
    · intro id s _ hp
      simp [restartCycle] at hp
    · intro s hq
      simpa [markVerified] using hq
    · intro sid u e a s _ _ hq
      simpa [completePreTest] using hq
    · intro sid a s _ _ _ _
      simp [completePostTest]
  exact hinv s hs hc

/-- The completion theorem on a full cycle of `a@x.com`. -/
theorem completed_implies_postTest_witness :
    cycledSession ∈ run "k" [] fullCycle ∧ cycledSession.completed = true ∧
      cycledSession.postTest = true :=
  ⟨by decide, rfl, completed_implies_postTest "k" fullCycle cycledSession (by decide) rfl⟩

/-- C10: on the reachable store `completedStore` the retry loop exits with 101, the
session of `a@x.com` is restarted under that id, and the handler writes no response
at all. -/
theorem sendVerification_completed_no_response :
    (findByEmail "a@x.com" completedStore).map Session.completed = some true ∧
      retryLoop completedStore (findByEmail "a@x.com" completedStore) [0, u101] = some 101 ∧
      ((sendVerification "k" 10 true [0, u101] (some "a@x.com") completedStore).store.map
        (fun s => (s.sessionId, s.completed))) = [(101, false)] ∧
      (sendVerification "k" 10 true [0, u101] (some "a@x.com") completedStore).responses = [] := by
  decide

end Mainpro
